import Mathlib

/-!
Shallow embedding of `src/tas_odometry/src/motor_odometry.cpp` (the motor
odometry ROS node) and proofs about it.

Modelling conventions:
* C++ `double` values (times, velocities, calibration constants, covariance
  entries) are modelled as rationals `ℚ`.  A value of type `Option ℚ` models a
  double that may be non-finite: `some q` is the finite value `q` and `none`
  stands for a non-finite IEEE value (`±Inf` or `NaN`).  In this program the
  only source of non-finite doubles is division by zero, captured by `ddiv`.
* The `int32_t` accumulator `encoder_abs` wraps with two's-complement
  semantics, modelled by `int32wrap` (values kept in `[-2^31, 2^31)`).
* The ROS header field `seq` is a `uint32`, so its increment is taken
  modulo `2^32`.
* `ros::Time::now()` is modelled by passing the current time explicitly as a
  rational argument to each operation.
* Publishing is modelled by returning the published messages from each
  operation; a trace of the node is a list of events (`Ev`), each either an
  encoder message arrival (handled by `encoder_callback`) or one iteration of
  the watchdog check in `main`'s spin loop (`watchdog_check`).
-/

namespace MotorOdometry

/-- Two's-complement reduction of an integer to the `int32_t` range
`[-2^31, 2^31)`; models C++ 32-bit signed wraparound of `encoder_abs`. -/
def int32wrap (n : ℤ) : ℤ :=
  (n + 2 ^ 31) % 2 ^ 32 - 2 ^ 31

/-- The four ROS parameters read in `main` (read once, never mutated). -/
structure Config where
  ticks_per_meter : ℚ
  frame_id : String
  uncertainty_fixed : ℚ
  deadline_timeout : ℚ
deriving DecidableEq, Repr

/-- The default parameter values from `main`:
`ticks_per_meter = 310`, `frame_id = "base_link"`, `uncertainty_fixed = 1e-3`,
`deadline_timeout = 0.1`. -/
def defaultConfig : Config :=
  { ticks_per_meter := 310
    frame_id := "base_link"
    uncertainty_fixed := 1 / 1000
    deadline_timeout := 1 / 10 }

/-- A configuration with non-positive calibration constants
(`ticks_per_meter = -1`, `deadline_timeout = -1`), used to examine the claimed
fail-fast startup validation. -/
def badConfig : Config :=
  { ticks_per_meter := -1
    frame_id := "base_link"
    uncertainty_fixed := 1 / 1000
    deadline_timeout := -1 }

/-- The `geometry_msgs::TwistWithCovarianceStamped` message, restricted to the
fields the node touches.  `seq` is a `uint32`; `linear_x` is `Option ℚ`
because the node's division can make it non-finite; the remaining twist
components are plain doubles the node never writes.  The covariance is the
row-major 6x6 matrix `twist.twist.covariance`, a list of 36 doubles. -/
structure TwistMsg where
  stamp : ℚ
  seq : ℕ
  frame_id : String
  linear_x : Option ℚ
  linear_y : ℚ
  linear_z : ℚ
  angular_x : ℚ
  angular_y : ℚ
  angular_z : ℚ
  covariance : List ℚ
deriving DecidableEq, Repr

/-- IEEE double division, restricted to what this node needs: a quotient is
non-finite (`none`) exactly when the divisor is zero (nonzero/0 gives `±Inf`,
0/0 gives `NaN`) or the dividend is already non-finite (`Inf` or `NaN`
propagates).  The case finite/non-finite never arises in this program. -/
def ddiv (a b : Option ℚ) : Option ℚ :=
  match a, b with
  | some x, some y => if y = 0 then none else some (x / y)
  | _, _ => none

/-- The covariance set up once in `main`: `assign(0.0)`, then
`elems[i] = 999` for `i = 0, 7, ..., 35`, then `elems[0] = uncertainty_fixed`. -/
def setupCovariance (u : ℚ) : List ℚ :=
  (([0, 7, 14, 21, 28, 35].foldl (fun c i => c.set i 999)
      (List.replicate 36 (0 : ℚ)))).set 0 u

/-- The node's mutable globals: the shared `twist` message template, the
`int32_t` accumulator `encoder_abs`, and `last_publish_time`. -/
structure NodeState where
  twist : TwistMsg
  encoder_abs : ℤ
  last_publish_time : ℚ
deriving DecidableEq, Repr

/-- The state after `main`'s setup code, before the spin loop: `seq = 0`,
`frame_id` and covariance configured, all other message fields
zero-initialized (C++ static initialization), `encoder_abs = 0`,
`last_publish_time = 0`. -/
def startup (cfg : Config) : NodeState :=
  { twist :=
      { stamp := 0
        seq := 0
        frame_id := cfg.frame_id
        linear_x := some 0
        linear_y := 0
        linear_z := 0
        angular_x := 0
        angular_y := 0
        angular_z := 0
        covariance := setupCovariance cfg.uncertainty_fixed }
    encoder_abs := 0
    last_publish_time := 0 }

/-- `encoder_callback`: stamps and bumps the shared twist message, records the
arrival time in `last_publish_time`, accumulates `encoder_ticks` into
`encoder_abs` and publishes it (the `std_msgs::Int32`, returned as the `ℤ`
component), computes `vel = (ticks / ticks_per_meter) / (duration / 1e6)`,
stores it in `linear.x` and publishes the twist message (returned as the
`TwistMsg` component). -/
def encoder_callback (cfg : Config) (now : ℚ) (encoder_ticks : ℤ)
    (duration : ℕ) (s : NodeState) : NodeState × ℤ × TwistMsg :=
  let t1 := { s.twist with stamp := now, seq := (s.twist.seq + 1) % 2 ^ 32 }
  let abs1 := int32wrap (s.encoder_abs + encoder_ticks)
  let change_meter := ddiv (some (encoder_ticks : ℚ)) (some cfg.ticks_per_meter)
  let change_time := ddiv (some (duration : ℚ)) (some 1000000)
  let vel := ddiv change_meter change_time
  let t2 := { t1 with linear_x := vel }
  ({ twist := t2, encoder_abs := abs1, last_publish_time := now }, abs1, t2)

/-- One iteration of the watchdog check at the bottom of `main`'s spin loop:
if `time_now - last_publish_time > deadline_timeout`, reset
`last_publish_time`, restamp and bump the shared twist, zero `linear.x` and
publish; otherwise do nothing. -/
def watchdog_check (cfg : Config) (now : ℚ) (s : NodeState) :
    NodeState × Option TwistMsg :=
  if now - s.last_publish_time > cfg.deadline_timeout then
    let t1 := { s.twist with
                  stamp := now
                  seq := (s.twist.seq + 1) % 2 ^ 32
                  linear_x := some 0 }
    ({ s with twist := t1, last_publish_time := now }, some t1)
  else
    (s, none)

/-- An external event of the node: arrival of an encoder message, or one pass
of the watchdog check, each tagged with the wall-clock time at which it runs. -/
inductive Ev where
  | enc (now : ℚ) (encoder_ticks : ℤ) (duration : ℕ)
  | wd (now : ℚ)
deriving DecidableEq, Repr

/-- One event step; returns the new state and the list of
`TwistWithCovarianceStamped` messages it published (0 or 1). -/
def stepOut (cfg : Config) (s : NodeState) : Ev → NodeState × List TwistMsg
  | Ev.enc now t d =>
      let r := encoder_callback cfg now t d s
      (r.1, [r.2.2])
  | Ev.wd now =>
      let r := watchdog_check cfg now s
      (r.1, r.2.toList)

/-- Run a list of events from a state, collecting all published twist
messages in order. -/
def runOut (cfg : Config) (s : NodeState) : List Ev → NodeState × List TwistMsg
  | [] => (s, [])
  | e :: rest =>
      let r := stepOut cfg s e
      let r2 := runOut cfg r.1 rest
      (r2.1, r.2 ++ r2.2)

/-- The node state after startup followed by a list of events. -/
def run (cfg : Config) (evs : List Ev) : NodeState :=
  (runOut cfg (startup cfg) evs).1

/-- All twist messages published during a trace from startup. -/
def outputs (cfg : Config) (evs : List Ev) : List TwistMsg :=
  (runOut cfg (startup cfg) evs).2

/-- The encoder tick deltas carried by a trace, in order. -/
def ticksOf : List Ev → List ℤ
  | [] => []
  | Ev.enc _ t _ :: rest => t :: ticksOf rest
  | Ev.wd _ :: rest => ticksOf rest

/-- The sequence numbers that `n` consecutive publishes carry when the shared
message's `seq` field starts at `j`: the `uint32` counter is bumped before
each publish. -/
def seqFrom (j n : ℕ) : List ℕ :=
  (List.range n).map (fun k => (j + k + 1) % 2 ^ 32)

/-- The message fields `encoder_callback` and the watchdog never write after
startup: the covariance and the five twist components other than `linear.x`. -/
def passiveFields (m : TwistMsg) : List ℚ × ℚ × ℚ × ℚ × ℚ × ℚ :=
  (m.covariance, m.linear_y, m.linear_z, m.angular_x, m.angular_y, m.angular_z)

lemma int32wrap_add_left (a b : ℤ) :
    int32wrap (int32wrap a + b) = int32wrap (a + b) := by
  unfold int32wrap; omega

lemma int32wrap_eq_self (n : ℤ) (h1 : -2 ^ 31 ≤ n) (h2 : n < 2 ^ 31) :
    int32wrap n = n := by
  unfold int32wrap; omega

lemma watchdog_check_encoder_abs (cfg : Config) (now : ℚ) (s : NodeState) :
    (watchdog_check cfg now s).1.encoder_abs = s.encoder_abs := by
  unfold watchdog_check; split <;> rfl

lemma runOut_encoder_abs (cfg : Config) : ∀ (evs : List Ev) (s : NodeState),
    (runOut cfg s evs).1.encoder_abs
      = (ticksOf evs).foldl (fun a t => int32wrap (a + t)) s.encoder_abs := by
  intro evs
  induction evs with
  | nil => intro s; rfl
  | cons e rest ih =>
    intro s
    cases e with
    | enc now t d =>
      simp only [runOut, stepOut, ticksOf, List.foldl_cons]
      rw [ih]
      rfl
    | wd now =>
      simp only [runOut, stepOut, ticksOf]
      rw [ih, watchdog_check_encoder_abs]

lemma foldl_int32wrap (l : List ℤ) : ∀ b : ℤ,
    l.foldl (fun a t => int32wrap (a + t)) (int32wrap b)
      = int32wrap (b + l.sum) := by
  induction l with
  | nil => intro b; simp
  | cons t ts ih =>
    intro b
    simp only [List.foldl_cons, List.sum_cons]
    rw [int32wrap_add_left, ih (b + t), add_assoc]

lemma run_encoder_abs (cfg : Config) (evs : List Ev) :
    (run cfg evs).encoder_abs = int32wrap (ticksOf evs).sum := by
  rw [run, runOut_encoder_abs]
  have h0 : (startup cfg).encoder_abs = int32wrap 0 := by
    unfold startup int32wrap; norm_num
  rw [h0, foldl_int32wrap, zero_add]

lemma seqFrom_succ (j n : ℕ) :
    seqFrom j (n + 1) = ((j + 1) % 2 ^ 32) :: seqFrom ((j + 1) % 2 ^ 32) n := by
  unfold seqFrom
  rw [List.range_succ_eq_map, List.map_cons, List.map_map]
  congr 1
  apply List.map_congr_left
  intro k hk
  simp only [Function.comp_apply]
  omega

lemma runOut_seq (cfg : Config) : ∀ (evs : List Ev) (s : NodeState),
    s.twist.seq < 2 ^ 32 →
    (runOut cfg s evs).2.map TwistMsg.seq
        = seqFrom s.twist.seq (runOut cfg s evs).2.length
    ∧ (runOut cfg s evs).1.twist.seq
        = (s.twist.seq + (runOut cfg s evs).2.length) % 2 ^ 32 := by
  intro evs
  induction evs with
  | nil =>
    intro s hs
    exact ⟨rfl, by simpa [runOut] using (Nat.mod_eq_of_lt hs).symm⟩
  | cons e rest ih =>
    intro s hs
    cases e with
    | enc now t d =>
      have hseq1 : (encoder_callback cfg now t d s).1.twist.seq
          = (s.twist.seq + 1) % 2 ^ 32 := rfl
      obtain ⟨ih1, ih2⟩ := ih (encoder_callback cfg now t d s).1
        (by rw [hseq1]; exact Nat.mod_lt _ (by norm_num))
      have hstep : runOut cfg s (Ev.enc now t d :: rest)
          = ((runOut cfg (encoder_callback cfg now t d s).1 rest).1,
             (encoder_callback cfg now t d s).2.2
               :: (runOut cfg (encoder_callback cfg now t d s).1 rest).2) := rfl
      rw [hseq1] at ih1 ih2
      constructor
      · rw [hstep]
        simp only [List.map_cons, List.length_cons]
        rw [seqFrom_succ, ih1]
        rfl
      · rw [hstep]
        simp only [List.length_cons]
        rw [ih2]
        omega
    | wd now =>
      by_cases hfire : now - s.last_publish_time > cfg.deadline_timeout
      · have hseq1 : (watchdog_check cfg now s).1.twist.seq
            = (s.twist.seq + 1) % 2 ^ 32 := by
          unfold watchdog_check
          rw [if_pos hfire]
        have hmap : ((watchdog_check cfg now s).2.toList).map TwistMsg.seq
            = [(s.twist.seq + 1) % 2 ^ 32] := by
          unfold watchdog_check
          rw [if_pos hfire]
          rfl
        have hlen : (watchdog_check cfg now s).2.toList.length = 1 := by
          unfold watchdog_check
          rw [if_pos hfire]
          rfl
        have hstep : runOut cfg s (Ev.wd now :: rest)
            = ((runOut cfg (watchdog_check cfg now s).1 rest).1,
               (watchdog_check cfg now s).2.toList
                 ++ (runOut cfg (watchdog_check cfg now s).1 rest).2) := rfl
        obtain ⟨ih1, ih2⟩ := ih (watchdog_check cfg now s).1
          (by rw [hseq1]; exact Nat.mod_lt _ (by norm_num))
        rw [hseq1] at ih1 ih2
        constructor
        · rw [hstep]
          simp only [List.map_append, List.length_append, hmap, hlen]
          rw [Nat.add_comm 1 (runOut cfg (watchdog_check cfg now s).1 rest).2.length,
            seqFrom_succ, ih1]
          rfl
        · rw [hstep]
          simp only [List.length_append, hlen]
          rw [ih2]
          omega
      · have hw : watchdog_check cfg now s = (s, none) := by
          unfold watchdog_check
          rw [if_neg hfire]
        have hstep : runOut cfg s (Ev.wd now :: rest)
            = ((runOut cfg (watchdog_check cfg now s).1 rest).1,
               (watchdog_check cfg now s).2.toList
                 ++ (runOut cfg (watchdog_check cfg now s).1 rest).2) := rfl
        obtain ⟨ih1, ih2⟩ := ih s hs
        rw [hstep, hw]
        simpa using ⟨ih1, ih2⟩

lemma chain_seqFrom (j n : ℕ) (h : j + n < 2 ^ 32) :
    List.Chain' (· < ·) (seqFrom j n) := by
  unfold seqFrom
  have hcong : (List.range n).map (fun k => (j + k + 1) % 2 ^ 32)
      = (List.range n).map (fun k => j + k + 1) := by
    apply List.map_congr_left
    intro k hk
    have hkn := List.mem_range.mp hk
    exact Nat.mod_eq_of_lt (by omega)
  rw [hcong, List.chain'_map]
  exact ((List.pairwise_lt_range n).chain').imp (fun a b hab => by omega)

lemma watchdog_check_passive (cfg : Config) (now : ℚ) (s : NodeState) :
    passiveFields (watchdog_check cfg now s).1.twist = passiveFields s.twist
    ∧ ∀ m ∈ (watchdog_check cfg now s).2.toList,
        passiveFields m = passiveFields s.twist := by
  unfold watchdog_check
  split
  · exact ⟨rfl, by intro m hm; simp at hm; rw [hm]; rfl⟩
  · exact ⟨rfl, by intro m hm; simp at hm⟩

lemma runOut_passive (cfg : Config) : ∀ (evs : List Ev) (s : NodeState),
    passiveFields (runOut cfg s evs).1.twist = passiveFields s.twist
    ∧ ∀ m ∈ (runOut cfg s evs).2, passiveFields m = passiveFields s.twist := by
  intro evs
  induction evs with
  | nil =>
    intro s
    exact ⟨rfl, by intro m hm; simp [runOut] at hm⟩
  | cons e rest ih =>
    intro s
    cases e with
    | enc now t d =>
      obtain ⟨ih1, ih2⟩ := ih (encoder_callback cfg now t d s).1
      have hpass : passiveFields (encoder_callback cfg now t d s).1.twist
          = passiveFields s.twist := rfl
      have hstep : runOut cfg s (Ev.enc now t d :: rest)
          = ((runOut cfg (encoder_callback cfg now t d s).1 rest).1,
             (encoder_callback cfg now t d s).2.2
               :: (runOut cfg (encoder_callback cfg now t d s).1 rest).2) := rfl
      rw [hstep]
      refine ⟨by rw [ih1, hpass], ?_⟩
      intro m hm
      rcases List.mem_cons.mp hm with hm | hm
      · rw [hm]; rfl
      · rw [ih2 m hm, hpass]
    | wd now =>
      obtain ⟨ih1, ih2⟩ := ih (watchdog_check cfg now s).1
      obtain ⟨hw1, hw2⟩ := watchdog_check_passive cfg now s
      have hstep : runOut cfg s (Ev.wd now :: rest)
          = ((runOut cfg (watchdog_check cfg now s).1 rest).1,
             (watchdog_check cfg now s).2.toList
               ++ (runOut cfg (watchdog_check cfg now s).1 rest).2) := rfl
      rw [hstep]
      refine ⟨by rw [ih1, hw1], ?_⟩
      intro m hm
      rcases List.mem_append.mp hm with hm | hm
      · exact hw2 m hm
      · rw [ih2 m hm, hw1]

lemma setupCovariance_getD (u : ℚ) (i : Fin 36) :
    (setupCovariance u).getD i 0
      = if (i : ℕ) = 0 then u else if (i : ℕ) % 7 = 0 then 999 else 0 := by
  have hs : setupCovariance u
      = [u, 0, 0, 0, 0, 0, 0, 999, 0, 0, 0, 0, 0, 0, 999, 0, 0, 0,
         0, 0, 0, 999, 0, 0, 0, 0, 0, 0, 999, 0, 0, 0, 0, 0, 0, 999] := rfl
  rw [hs]
  fin_cases i <;> rfl

lemma runOut_replicate_enc_len (cfg : Config) (now : ℚ) (t : ℤ) (d : ℕ) :
    ∀ (n : ℕ) (s : NodeState),
      ((runOut cfg s (List.replicate n (Ev.enc now t d))).2).length = n := by
  intro n
  induction n with
  | zero => intro s; rfl
  | succ k ih =>
    intro s
    have hstep : runOut cfg s (List.replicate (k + 1) (Ev.enc now t d))
        = ((runOut cfg (encoder_callback cfg now t d s).1
              (List.replicate k (Ev.enc now t d))).1,
           (encoder_callback cfg now t d s).2.2
             :: (runOut cfg (encoder_callback cfg now t d s).1
                  (List.replicate k (Ev.enc now t d))).2) := rfl
    rw [hstep]
    simp [ih]

/-- C1: for every encoder event with positive duration (and the positive
calibration the config invariant guarantees), `encoder_callback` publishes a
twist whose `linear.x` equals `(tick_delta / ticks_per_meter) /
(duration_micros / 1e6)`; in particular, with the default
`ticks_per_meter = 310`, the event `(310, 1000000)` yields `1.0` and the
event `(-155, 500000)` yields `-1.0`. -/
theorem velocity_formula (cfg : Config) (s : NodeState) (now : ℚ) (t : ℤ)
    (d : ℕ) (hd : 0 < d) (htpm : 0 < cfg.ticks_per_meter) :
    (encoder_callback cfg now t d s).2.2.linear_x
      = some (((t : ℚ) / cfg.ticks_per_meter) / ((d : ℚ) / 1000000))
    ∧ (encoder_callback defaultConfig now 310 1000000 s).2.2.linear_x = some 1
    ∧ (encoder_callback defaultConfig now (-155) 500000 s).2.2.linear_x
        = some (-1) := by
  have hd' : ((d : ℚ) / 1000000) ≠ 0 := by
    have hdq : (d : ℚ) ≠ 0 := Nat.cast_ne_zero.mpr hd.ne'
    positivity
  refine ⟨?_, ?_, ?_⟩
  · simp [encoder_callback, ddiv, htpm.ne', hd']
  · simp [encoder_callback, ddiv, defaultConfig]
  · simp [encoder_callback, ddiv, defaultConfig]
    norm_num

/-- Witness for C1 at the event `(tick_delta = 310, duration = 1000000)` on
the default configuration. -/
theorem velocity_formula_witness :
    0 < (1000000 : ℕ) ∧ 0 < defaultConfig.ticks_per_meter ∧
    ((encoder_callback defaultConfig 1 310 1000000 (startup defaultConfig)).2.2.linear_x
        = some ((((310 : ℤ) : ℚ) / defaultConfig.ticks_per_meter)
            / (((1000000 : ℕ) : ℚ) / 1000000))
      ∧ (encoder_callback defaultConfig 1 310 1000000
          (startup defaultConfig)).2.2.linear_x = some 1
      ∧ (encoder_callback defaultConfig 1 (-155) 500000
          (startup defaultConfig)).2.2.linear_x = some (-1)) :=
  ⟨by norm_num, by norm_num [defaultConfig],
    velocity_formula defaultConfig (startup defaultConfig) 1 310 1000000
      (by norm_num) (by norm_num [defaultConfig])⟩

/-- C2 (counterexample): the accumulator is a wrapping `int32`, so after the
two events with tick deltas `2147483647` and `1` it holds `-2147483648`, not
the mathematical sum `2147483648`. -/
theorem abs_tick_exact_sum_cex :
    (run defaultConfig [Ev.enc 1 2147483647 1, Ev.enc 2 1 1]).encoder_abs
        = -2147483648
    ∧ (ticksOf [Ev.enc 1 2147483647 1, Ev.enc 2 1 1]).sum = 2147483648
    ∧ (run defaultConfig [Ev.enc 1 2147483647 1, Ev.enc 2 1 1]).encoder_abs
        ≠ (ticksOf [Ev.enc 1 2147483647 1, Ev.enc 2 1 1]).sum := by
  have h1 : (run defaultConfig [Ev.enc 1 2147483647 1, Ev.enc 2 1 1]).encoder_abs
      = -2147483648 := rfl
  have h2 : (ticksOf [Ev.enc 1 2147483647 1, Ev.enc 2 1 1]).sum = 2147483648 := by
    decide
  exact ⟨h1, h2, by rw [h1, h2]; decide⟩

/-- C2 (amended): as long as the sum of all tick deltas fits in the `int32`
range, the accumulator after a trace equals that sum exactly, and the value is
order-independent: any trace carrying a permutation of the same tick deltas
ends with the same accumulator. -/
theorem abs_tick_sum_in_range (cfg : Config) (evs evs2 : List Ev)
    (hlo : -2 ^ 31 ≤ (ticksOf evs).sum) (hhi : (ticksOf evs).sum < 2 ^ 31)
    (hperm : List.Perm (ticksOf evs2) (ticksOf evs)) :
    (run cfg evs).encoder_abs = (ticksOf evs).sum
    ∧ (run cfg evs2).encoder_abs = (run cfg evs).encoder_abs := by
  have h1 := run_encoder_abs cfg evs
  have h2 := run_encoder_abs cfg evs2
  refine ⟨by rw [h1]; exact int32wrap_eq_self _ hlo hhi, ?_⟩
  rw [h1, h2, hperm.sum_eq]

/-- Witness for C2 (amended): a two-event trace with tick deltas `5, -3` and a
three-event trace carrying the permutation `-3, 5` (with a watchdog pass in
between). -/
theorem abs_tick_sum_in_range_witness :
    -2 ^ 31 ≤ (ticksOf [Ev.enc 1 5 10, Ev.enc 2 (-3) 10]).sum
    ∧ (ticksOf [Ev.enc 1 5 10, Ev.enc 2 (-3) 10]).sum < 2 ^ 31
    ∧ List.Perm (ticksOf [Ev.enc 7 (-3) 1, Ev.wd 3, Ev.enc 9 5 2])
        (ticksOf [Ev.enc 1 5 10, Ev.enc 2 (-3) 10])
    ∧ ((run defaultConfig [Ev.enc 1 5 10, Ev.enc 2 (-3) 10]).encoder_abs
          = (ticksOf [Ev.enc 1 5 10, Ev.enc 2 (-3) 10]).sum
      ∧ (run defaultConfig [Ev.enc 7 (-3) 1, Ev.wd 3, Ev.enc 9 5 2]).encoder_abs
          = (run defaultConfig [Ev.enc 1 5 10, Ev.enc 2 (-3) 10]).encoder_abs) :=
  ⟨by decide, by decide, by decide,
    abs_tick_sum_in_range defaultConfig
      [Ev.enc 1 5 10, Ev.enc 2 (-3) 10]
      [Ev.enc 7 (-3) 1, Ev.wd 3, Ev.enc 9 5 2]
      (by decide) (by decide) (by decide)⟩

/-- C3: the code does not guard the division: an encoder event with
`duration_micros = 0` makes `encoder_callback` publish a twist whose
`linear.x` is non-finite (`Inf`), contradicting the required guard. -/
theorem zero_duration_publishes_nonfinite :
    (encoder_callback defaultConfig 1 310 0 (startup defaultConfig)).2.2.linear_x
        = none
    ∧ (stepOut defaultConfig (startup defaultConfig) (Ev.enc 1 310 0)).2
        = [(encoder_callback defaultConfig 1 310 0 (startup defaultConfig)).2.2] := by
  constructor
  · simp [encoder_callback, ddiv, defaultConfig]
  · rfl

/-- C4: when the watchdog finds the deadline exceeded it publishes exactly one
zero-velocity twist, resets `last_publish_time` to the current time, leaves
the accumulator untouched, and a further watchdog pass within the deadline
window publishes nothing. -/
theorem watchdog_single_publish (cfg : Config) (s : NodeState) (t1 t2 : ℚ)
    (hfire : t1 - s.last_publish_time > cfg.deadline_timeout)
    (hsoon : t2 - t1 ≤ cfg.deadline_timeout) :
    ((watchdog_check cfg t1 s).2).isSome = true
    ∧ ((watchdog_check cfg t1 s).2.getD s.twist).linear_x = some 0
    ∧ (watchdog_check cfg t1 s).1.encoder_abs = s.encoder_abs
    ∧ (watchdog_check cfg t1 s).1.last_publish_time = t1
    ∧ (watchdog_check cfg t2 (watchdog_check cfg t1 s).1).2 = none := by
  have hstate : (watchdog_check cfg t1 s).1.last_publish_time = t1 := by
    unfold watchdog_check
    rw [if_pos hfire]
  refine ⟨?_, ?_, ?_, hstate, ?_⟩
  · unfold watchdog_check
    rw [if_pos hfire]
    rfl
  · unfold watchdog_check
    rw [if_pos hfire]
    rfl
  · unfold watchdog_check
    rw [if_pos hfire]
  · set s1 := (watchdog_check cfg t1 s).1 with hs1
    unfold watchdog_check
    rw [hstate, if_neg (by simpa using not_lt.mpr hsoon)]

/-- Witness for C4 with the default deadline `0.1`: a watchdog pass at `t = 1`
fires from startup, a second pass at `t = 21/20` does not. -/
theorem watchdog_single_publish_witness :
    (1 : ℚ) - (startup defaultConfig).last_publish_time
        > defaultConfig.deadline_timeout
    ∧ (21 / 20 : ℚ) - 1 ≤ defaultConfig.deadline_timeout
    ∧ (((watchdog_check defaultConfig 1 (startup defaultConfig)).2).isSome = true
      ∧ ((watchdog_check defaultConfig 1 (startup defaultConfig)).2.getD
            (startup defaultConfig).twist).linear_x = some 0
      ∧ (watchdog_check defaultConfig 1 (startup defaultConfig)).1.encoder_abs
          = (startup defaultConfig).encoder_abs
      ∧ (watchdog_check defaultConfig 1 (startup defaultConfig)).1.last_publish_time
          = 1
      ∧ (watchdog_check defaultConfig (21 / 20)
            (watchdog_check defaultConfig 1 (startup defaultConfig)).1).2
          = none) :=
  ⟨by norm_num [startup, defaultConfig], by norm_num [defaultConfig],
    watchdog_single_publish defaultConfig (startup defaultConfig) 1 (21 / 20)
      (by norm_num [startup, defaultConfig]) (by norm_num [defaultConfig])⟩

/-- C7: the code performs no validation of the calibration constants: with
`ticks_per_meter = -1` and `deadline_timeout = -1` the node starts normally,
processes the first encoder event, publishes a velocity estimate computed
with the non-positive calibration, and updates the accumulator — it does not
fail fast. -/
theorem nonpositive_config_accepted :
    badConfig.ticks_per_meter ≤ 0
    ∧ badConfig.deadline_timeout ≤ 0
    ∧ (outputs badConfig [Ev.enc 1 10 1000]).map TwistMsg.linear_x
        = [some (-10000)]
    ∧ (run badConfig [Ev.enc 1 10 1000]).encoder_abs = 10 := by
  refine ⟨by norm_num [badConfig], by norm_num [badConfig], ?_, rfl⟩
  simp [outputs, runOut, stepOut, encoder_callback, ddiv, badConfig]
  norm_num

/-- C5: every published twist carries the covariance built once at startup:
entry 0 (linear x) is the configured `uncertainty_fixed`, the other diagonal
entries (index divisible by 7) are the sentinel `999`, and every off-diagonal
entry is `0`; no operation after startup modifies it. -/
theorem covariance_fixed (cfg : Config) (evs : List Ev) (m : TwistMsg)
    (i : Fin 36) (hm : m ∈ outputs cfg evs) :
    m.covariance = setupCovariance cfg.uncertainty_fixed
    ∧ (setupCovariance cfg.uncertainty_fixed).getD (i : ℕ) 0
        = if (i : ℕ) = 0 then cfg.uncertainty_fixed
          else if (i : ℕ) % 7 = 0 then 999 else 0 := by
  refine ⟨?_, setupCovariance_getD cfg.uncertainty_fixed i⟩
  have h := (runOut_passive cfg evs (startup cfg)).2 m hm
  have h1 := congrArg Prod.fst h
  simpa [passiveFields, startup] using h1

/-- Witness for C5: the message published for the event `(310, 1000000)` on
the default configuration, inspected at covariance index 7. -/
theorem covariance_fixed_witness :
    (encoder_callback defaultConfig 1 310 1000000 (startup defaultConfig)).2.2
        ∈ outputs defaultConfig [Ev.enc 1 310 1000000]
    ∧ ((encoder_callback defaultConfig 1 310 1000000
          (startup defaultConfig)).2.2.covariance
        = setupCovariance defaultConfig.uncertainty_fixed
      ∧ (setupCovariance defaultConfig.uncertainty_fixed).getD
            (((7 : Fin 36)) : ℕ) 0
          = if (((7 : Fin 36)) : ℕ) = 0 then defaultConfig.uncertainty_fixed
            else if (((7 : Fin 36)) : ℕ) % 7 = 0 then 999 else 0) :=
  ⟨by simp [outputs, runOut, stepOut],
    covariance_fixed defaultConfig [Ev.enc 1 310 1000000] _ 7
      (by simp [outputs, runOut, stepOut])⟩

/-- C8: in every published twist the five components other than `linear.x`
are zero. -/
theorem only_linear_x_varies (cfg : Config) (evs : List Ev) (m : TwistMsg)
    (hm : m ∈ outputs cfg evs) :
    m.linear_y = 0 ∧ m.linear_z = 0 ∧ m.angular_x = 0 ∧ m.angular_y = 0
    ∧ m.angular_z = 0 := by
  have h := (runOut_passive cfg evs (startup cfg)).2 m hm
  simp only [passiveFields, startup, Prod.mk.injEq] at h
  exact ⟨h.2.1, h.2.2.1, h.2.2.2.1, h.2.2.2.2.1, h.2.2.2.2.2⟩

/-- Witness for C8: the message published for the event `(7, 500)` on the
default configuration. -/
theorem only_linear_x_varies_witness :
    (encoder_callback defaultConfig 2 7 500 (startup defaultConfig)).2.2
        ∈ outputs defaultConfig [Ev.enc 2 7 500]
    ∧ ((encoder_callback defaultConfig 2 7 500 (startup defaultConfig)).2.2.linear_y = 0
      ∧ (encoder_callback defaultConfig 2 7 500 (startup defaultConfig)).2.2.linear_z = 0
      ∧ (encoder_callback defaultConfig 2 7 500 (startup defaultConfig)).2.2.angular_x = 0
      ∧ (encoder_callback defaultConfig 2 7 500 (startup defaultConfig)).2.2.angular_y = 0
      ∧ (encoder_callback defaultConfig 2 7 500 (startup defaultConfig)).2.2.angular_z = 0) :=
  ⟨by simp [outputs, runOut, stepOut],
    only_linear_x_varies defaultConfig [Ev.enc 2 7 500] _
      (by simp [outputs, runOut, stepOut])⟩

/-- C9: `last_publish_time` starts at `0`, so the very first watchdog pass
after startup already publishes a zero-velocity twist (with sequence number 1)
whenever the clock reads more than `deadline_timeout`, before any encoder
event has arrived. -/
theorem first_watchdog_fires (cfg : Config) (t : ℚ)
    (h : cfg.deadline_timeout < t) :
    (startup cfg).last_publish_time = 0
    ∧ ((watchdog_check cfg t (startup cfg)).2).isSome = true
    ∧ ((watchdog_check cfg t (startup cfg)).2.getD
          (startup cfg).twist).linear_x = some 0
    ∧ ((watchdog_check cfg t (startup cfg)).2.getD
          (startup cfg).twist).seq = 1 := by
  have hfire : t - (startup cfg).last_publish_time > cfg.deadline_timeout := by
    simpa [startup] using h
  refine ⟨rfl, ?_, ?_, ?_⟩ <;>
    · unfold watchdog_check
      rw [if_pos hfire]
      rfl

/-- Witness for C9: with the default deadline `0.1`, a first watchdog pass at
`t = 1` publishes. -/
theorem first_watchdog_fires_witness :
    defaultConfig.deadline_timeout < (1 : ℚ)
    ∧ ((startup defaultConfig).last_publish_time = 0
      ∧ ((watchdog_check defaultConfig 1 (startup defaultConfig)).2).isSome = true
      ∧ ((watchdog_check defaultConfig 1 (startup defaultConfig)).2.getD
            (startup defaultConfig).twist).linear_x = some 0
      ∧ ((watchdog_check defaultConfig 1 (startup defaultConfig)).2.getD
            (startup defaultConfig).twist).seq = 1) :=
  ⟨by norm_num [defaultConfig],
    first_watchdog_fires defaultConfig 1 (by norm_num [defaultConfig])⟩

/-- C10: the accumulator equals the two's-complement `int32` reduction of the
sum of all tick deltas; a trace whose deltas sum to `4294967294` leaves the
accumulator at `-2`, a wrapped value different from the exact sum. -/
theorem abs_tick_wraps (cfg : Config) (evs : List Ev) :
    (run cfg evs).encoder_abs = int32wrap (ticksOf evs).sum
    ∧ (run defaultConfig
        [Ev.enc 1 2147483647 2, Ev.enc 2 2147483647 2]).encoder_abs = -2
    ∧ ((-2 : ℤ)
        ≠ (ticksOf [Ev.enc 1 2147483647 2, Ev.enc 2 2147483647 2]).sum) :=
  ⟨run_encoder_abs cfg evs, rfl, by decide⟩

/-- C6 (counterexample): the shared sequence counter is a `uint32`, so a trace
of `2^32` encoder events publishes sequence numbers `1, 2, ..., 2^32 - 1, 0`:
the published sequence numbers are not strictly increasing. -/
theorem seq_strictly_increasing_cex :
    ¬ List.Chain' (· < ·)
        ((outputs defaultConfig
            (List.replicate (2 ^ 32) (Ev.enc 0 0 1))).map TwistMsg.seq) := by
  intro hc
  have h0 : (startup defaultConfig).twist.seq = 0 := rfl
  have hlen : (outputs defaultConfig
      (List.replicate (2 ^ 32) (Ev.enc 0 0 1))).length = 2 ^ 32 :=
    runOut_replicate_enc_len defaultConfig 0 0 1 (2 ^ 32) (startup defaultConfig)
  have h1 : (outputs defaultConfig
        (List.replicate (2 ^ 32) (Ev.enc 0 0 1))).map TwistMsg.seq
      = seqFrom (startup defaultConfig).twist.seq
          (outputs defaultConfig (List.replicate (2 ^ 32) (Ev.enc 0 0 1))).length :=
    (runOut_seq defaultConfig (List.replicate (2 ^ 32) (Ev.enc 0 0 1))
      (startup defaultConfig) (by rw [h0]; norm_num)).1
  rw [h0, hlen] at h1
  rw [h1] at hc
  unfold seqFrom at hc
  rw [List.chain'_map, List.chain'_iff_get] at hc
  have hpair := hc (2 ^ 32 - 2)
    (by rw [List.length_range]; norm_num)
  rw [List.get_range, List.get_range] at hpair
  omega

/-- C6 (amended): each publish bumps the shared `uint32` sequence counter by
one modulo `2^32`, so across any interleaving the published sequence numbers
are `1, 2, ...` reduced mod `2^32`; they are strictly increasing provided the
trace publishes fewer than `2^32` messages. -/
theorem seq_increasing_mod_wrap (cfg : Config) (evs : List Ev)
    (h : (outputs cfg evs).length < 2 ^ 32) :
    (outputs cfg evs).map TwistMsg.seq = seqFrom 0 (outputs cfg evs).length
    ∧ List.Chain' (· < ·) ((outputs cfg evs).map TwistMsg.seq) := by
  have h0 : (startup cfg).twist.seq = 0 := rfl
  have h1 : (outputs cfg evs).map TwistMsg.seq
      = seqFrom (startup cfg).twist.seq (outputs cfg evs).length :=
    (runOut_seq cfg evs (startup cfg) (by rw [h0]; norm_num)).1
  rw [h0] at h1
  refine ⟨h1, ?_⟩
  rw [h1]
  exact chain_seqFrom 0 _ (by omega)

/-- Witness for C6 (amended): a three-event trace (two encoder events around a
firing watchdog pass) publishes sequence numbers `[1, 2, 3]`. -/
theorem seq_increasing_mod_wrap_witness :
    (outputs defaultConfig [Ev.enc 1 1 1, Ev.wd 2, Ev.enc 3 2 5]).length < 2 ^ 32
    ∧ ((outputs defaultConfig [Ev.enc 1 1 1, Ev.wd 2, Ev.enc 3 2 5]).map TwistMsg.seq
        = seqFrom 0 (outputs defaultConfig
            [Ev.enc 1 1 1, Ev.wd 2, Ev.enc 3 2 5]).length
      ∧ List.Chain' (· < ·)
          ((outputs defaultConfig
              [Ev.enc 1 1 1, Ev.wd 2, Ev.enc 3 2 5]).map TwistMsg.seq)) :=
  ⟨by norm_num [outputs, runOut, stepOut, watchdog_check, encoder_callback,
      startup, defaultConfig],
    seq_increasing_mod_wrap defaultConfig [Ev.enc 1 1 1, Ev.wd 2, Ev.enc 3 2 5]
      (by norm_num [outputs, runOut, stepOut, watchdog_check, encoder_callback,
        startup, defaultConfig])⟩

end MotorOdometry
